import Mathlib

/-!
A shallow embedding of the WeldProfile physics core
(`src/welding_physics.py`, `src/material_properties.py`) and proofs of the
specification's claims about it.  All machine floats are modelled by real
numbers; the grid of the temperature field is indexed by naturals.
-/

namespace WeldProfile

/-- A material-property record: the twelve numeric fields of one entry of
`properties_db` in `material_properties.py`. -/
structure MaterialProps where
  thermal_conductivity : ℝ
  density : ℝ
  specific_heat_solid : ℝ
  specific_heat_liquid : ℝ
  solidus_temp : ℝ
  liquidus_temp : ℝ
  latent_heat : ℝ
  permeability : ℝ
  surface_tension : ℝ
  arc_efficiency_gtaw : ℝ
  arc_efficiency_gmaw : ℝ
  droplet_efficiency_gmaw : ℝ

/-- `properties_db["Steel"]`. -/
noncomputable def Steel : MaterialProps :=
  ⟨50, 7800, 726000, 732000, 1768, 1798, 277000, 1.26e-6, 1.8, 0.7, 0.56, 0.24⟩

/-- `properties_db["Aluminum"]`. -/
noncomputable def Aluminum : MaterialProps :=
  ⟨237, 2700, 903000, 1080000, 933, 943, 397000, 1.26e-6, 0.9, 0.65, 0.50, 0.20⟩

/-- `properties_db["Stainless Steel"]`. -/
noncomputable def StainlessSteel : MaterialProps :=
  ⟨16, 8000, 500000, 520000, 1673, 1723, 260000, 1.26e-6, 1.6, 0.68, 0.54, 0.22⟩

/-- `properties_db["Titanium"]`. -/
noncomputable def Titanium : MaterialProps :=
  ⟨22, 4500, 520000, 610000, 1933, 1943, 420000, 1.26e-6, 1.5, 0.72, 0.58, 0.26⟩

/-- `MaterialProperties.get_properties`: dictionary lookup with silent
fallback to `"Steel"` for an unknown key. -/
noncomputable def MaterialProperties.get_properties (material_type : String) : MaterialProps :=
  if material_type = "Steel" then Steel
  else if material_type = "Aluminum" then Aluminum
  else if material_type = "Stainless Steel" then StainlessSteel
  else if material_type = "Titanium" then Titanium
  else Steel

/-- The preconditions the physics engine places on a material record:
positive conductivity, density and solid specific heat, and a liquidus
temperature above room temperature (298 K). -/
def ValidMaterial (m : MaterialProps) : Prop :=
  0 < m.thermal_conductivity ∧ 0 < m.density ∧ 0 < m.specific_heat_solid ∧
    298 < m.liquidus_temp

/-- `WeldingSimulator.calculate_heat_input`: the travel speed is converted to
mm/min (`* 60`) and the net heat input is
`arc_efficiency * voltage * current * 60 / travel_speed_mm_min`. -/
noncomputable def calculate_heat_input (current voltage travel_speed arc_efficiency : ℝ) : ℝ :=
  let travel_speed_mm_min := travel_speed * 60
  (arc_efficiency * voltage * current * 60) / travel_speed_mm_min

/-- The record returned by `calculate_weld_pool_geometry`. -/
structure WeldPoolGeometry where
  width : ℝ
  length : ℝ
  penetration : ℝ
  aspect_ratio : ℝ
  dilution_ratio : ℝ
  volume : ℝ
  heat_input : ℝ
  characteristic_length : ℝ

/-- The characteristic thermal length `l_c = q / (2 π k ΔT)` (in meters) of
`calculate_weld_pool_geometry`, with `q = heat_input * 1000` and
`ΔT = liquidus_temp - 298`. -/
noncomputable def characteristic_length_m (heat_input : ℝ) (m : MaterialProps) : ℝ :=
  (heat_input * 1000) / (2 * Real.pi * m.thermal_conductivity * (m.liquidus_temp - 298))

/-- The pre-clamp weld-pool width `2.5 * l_c * 1000` (mm). -/
noncomputable def pool_width_raw (heat_input : ℝ) (m : MaterialProps) : ℝ :=
  2.5 * characteristic_length_m heat_input m * 1000

/-- The pre-clamp penetration: the thick-plate branch
(`plate_thickness > 3 * width`) gives `0.8 * l_c * 1000`, the thin-plate
branch gives `min (0.6 * l_c * 1000) (plate_thickness * 0.9)`. -/
noncomputable def pool_penetration_raw (heat_input : ℝ) (m : MaterialProps)
    (plate_thickness : ℝ) : ℝ :=
  if plate_thickness > 3 * pool_width_raw heat_input m then
    0.8 * characteristic_length_m heat_input m * 1000
  else
    min (0.6 * characteristic_length_m heat_input m * 1000) (plate_thickness * 0.9)

/-- The dilution ratio `penetration / (penetration + 3.0)` of
`calculate_weld_pool_geometry` (3 mm assumed cap height). -/
noncomputable def dilutionRatio (penetration : ℝ) : ℝ :=
  penetration / (penetration + 3.0)

/-- `WeldingSimulator.calculate_weld_pool_geometry`: width and length from the
characteristic length, penetration branching on the plate-thickness regime,
then the physical-plausibility clamps `penetration := min penetration
plate_thickness` and `width := min width (plate_thickness * 2)`, and the
derived ratios and the ellipsoid volume computed from the clamped values. -/
noncomputable def calculate_weld_pool_geometry (heat_input : ℝ) (material_props : MaterialProps)
    (plate_thickness : ℝ) : WeldPoolGeometry :=
  let l_c := characteristic_length_m heat_input material_props
  let width0 := pool_width_raw heat_input material_props
  let length := 3.2 * width0
  let penetration := min (pool_penetration_raw heat_input material_props plate_thickness)
    plate_thickness
  let width := min width0 (plate_thickness * 2)
  let aspect_ratio := length / width
  let dilution_ratio := dilutionRatio penetration
  let volume := (Real.pi / 6) * width * length * penetration
  ⟨width, length, penetration, aspect_ratio, dilution_ratio, volume, heat_input, l_c * 1000⟩

/-- The x grid of `calculate_temperature_distribution`:
`np.linspace(-20, 40, 61)`, i.e. `x_mm j = -20 + j` for `j = 0, ..., 60`. -/
noncomputable def x_grid (j : ℕ) : ℝ := -20 + j

/-- The y grid of `calculate_temperature_distribution`:
`np.linspace(-15, 15, 31)`, i.e. `y_mm i = -15 + i` for `i = 0, ..., 30`. -/
noncomputable def y_grid (i : ℕ) : ℝ := -15 + i

/-- The body of the grid loop of `calculate_temperature_distribution` at a
point given in millimetres: coordinates are converted to meters, and for
`r > 0` Rosenthal's moving point-source solution
`T_0 + (q / (2 π k R)) * exp (-v (R - x) / (2 α))` is evaluated, while at the
singular point the regularized value `T_0 + q / (4 π k * 0.001)` is used. -/
noncomputable def temperature_at (heat_input : ℝ) (material_props : MaterialProps)
    (travel_speed : ℝ) (x_mm y_mm : ℝ) : ℝ :=
  let k := material_props.thermal_conductivity
  let rho := material_props.density
  let cp := material_props.specific_heat_solid
  let T_0 : ℝ := 298
  let alpha := k / (rho * cp)
  let q := heat_input * 1000
  let v := travel_speed / 1000
  let x := x_mm / 1000
  let y := y_mm / 1000
  let r := Real.sqrt (x ^ 2 + y ^ 2)
  if r > 0 then
    let R := Real.sqrt (x ^ 2 + y ^ 2)
    T_0 + (q / (2 * Real.pi * k * R)) * Real.exp (-v * (R - x) / (2 * alpha))
  else
    T_0 + q / (4 * Real.pi * k * 0.001)

/-- Entry `T[i, j]` of the matrix returned by
`calculate_temperature_distribution` (row `i` over y, column `j` over x),
after the final clamp `T = np.minimum(T, 3500)`. -/
noncomputable def temperature_matrix_entry (heat_input : ℝ) (material_props : MaterialProps)
    (travel_speed : ℝ) (i j : ℕ) : ℝ :=
  min (temperature_at heat_input material_props travel_speed (x_grid j) (y_grid i)) 3500

/-- One record of the list returned by `sensitivity_analysis`. -/
structure SensitivityRecord where
  parameter : String
  width_sensitivity : ℝ
  penetration_sensitivity : ℝ
  base_value : ℝ

instance : Inhabited SensitivityRecord := ⟨⟨"", 0, 0, 0⟩⟩

/-- `WeldingSimulator.sensitivity_analysis`: the base heat input and pool, the
±10 % perturbation of each parameter in turn, and for each the central
difference of the resulting pool widths and penetrations normalised by the
base value and the base pool figure.  The loop body is factored into a local
function; the list order is the source's fixed enumeration. -/
noncomputable def sensitivity_analysis (base_current base_voltage base_speed arc_efficiency : ℝ)
    (material_props : MaterialProps) (plate_thickness : ℝ) : List SensitivityRecord :=
  let base_heat_input := calculate_heat_input base_current base_voltage base_speed arc_efficiency
  let base_pool := calculate_weld_pool_geometry base_heat_input material_props plate_thickness
  let variation : ℝ := 0.1
  let entry := fun (param_name : String) (base_value heat_input_high heat_input_low : ℝ) =>
    let pool_high := calculate_weld_pool_geometry heat_input_high material_props plate_thickness
    let pool_low := calculate_weld_pool_geometry heat_input_low material_props plate_thickness
    let width_sensitivity :=
      ((pool_high.width - pool_low.width) / (2 * variation * base_value)) *
        (base_value / base_pool.width)
    let penetration_sensitivity :=
      ((pool_high.penetration - pool_low.penetration) / (2 * variation * base_value)) *
        (base_value / base_pool.penetration)
    SensitivityRecord.mk param_name width_sensitivity penetration_sensitivity base_value
  [entry "current" base_current
      (calculate_heat_input (base_current * (1 + variation)) base_voltage base_speed arc_efficiency)
      (calculate_heat_input (base_current * (1 - variation)) base_voltage base_speed arc_efficiency),
   entry "voltage" base_voltage
      (calculate_heat_input base_current (base_voltage * (1 + variation)) base_speed arc_efficiency)
      (calculate_heat_input base_current (base_voltage * (1 - variation)) base_speed arc_efficiency),
   entry "travel_speed" base_speed
      (calculate_heat_input base_current base_voltage (base_speed * (1 + variation)) arc_efficiency)
      (calculate_heat_input base_current base_voltage (base_speed * (1 - variation)) arc_efficiency),
   entry "arc_efficiency" arc_efficiency
      (calculate_heat_input base_current base_voltage base_speed (arc_efficiency * (1 + variation)))
      (calculate_heat_input base_current base_voltage base_speed (arc_efficiency * (1 - variation)))]

/-- A concrete material record used to evaluate the temperature field at
explicit inputs: conductivity `1 / (2π)`, density `30000 / π`, unit specific
heats, and the solidus/liquidus pair of steel.  It satisfies every
precondition in `ValidMaterial`. -/
noncomputable def probeMaterial : MaterialProps :=
  ⟨1 / (2 * Real.pi), 30000 / Real.pi, 1, 1, 1768, 1798, 1, 1, 1, 1, 1, 1⟩

/-! ## Helper lemmas -/

theorem Steel_valid : ValidMaterial Steel := by
  refine ⟨?_, ?_, ?_, ?_⟩ <;> norm_num [Steel, ValidMaterial]

theorem probeMaterial_valid : ValidMaterial probeMaterial := by
  have hpi := Real.pi_pos
  refine ⟨show (0:ℝ) < 1 / (2 * Real.pi) by positivity,
    show (0:ℝ) < 30000 / Real.pi by positivity,
    by norm_num [probeMaterial], by norm_num [probeMaterial]⟩

theorem characteristic_length_m_pos {h : ℝ} {m : MaterialProps} (hh : 0 < h)
    (hm : ValidMaterial m) : 0 < characteristic_length_m h m := by
  obtain ⟨hk, -, -, hT⟩ := hm
  have hpi := Real.pi_pos
  exact div_pos (by linarith)
    (mul_pos (mul_pos (by linarith) hk) (by linarith))

theorem pool_width_raw_pos {h : ℝ} {m : MaterialProps} (hh : 0 < h)
    (hm : ValidMaterial m) : 0 < pool_width_raw h m := by
  have hl := characteristic_length_m_pos hh hm
  unfold pool_width_raw
  nlinarith

theorem pool_penetration_raw_pos {h : ℝ} {m : MaterialProps} {t : ℝ} (hh : 0 < h)
    (hm : ValidMaterial m) (ht : 0 < t) : 0 < pool_penetration_raw h m t := by
  have hl := characteristic_length_m_pos hh hm
  unfold pool_penetration_raw
  split_ifs
  · nlinarith
  · exact lt_min (by nlinarith) (by nlinarith)

theorem pool_penetration_eq (h : ℝ) (m : MaterialProps) (t : ℝ) :
    (calculate_weld_pool_geometry h m t).penetration = min (pool_penetration_raw h m t) t := rfl

theorem pool_width_eq (h : ℝ) (m : MaterialProps) (t : ℝ) :
    (calculate_weld_pool_geometry h m t).width = min (pool_width_raw h m) (t * 2) := rfl

theorem pool_length_eq (h : ℝ) (m : MaterialProps) (t : ℝ) :
    (calculate_weld_pool_geometry h m t).length = 3.2 * pool_width_raw h m := rfl

theorem pool_aspect_eq (h : ℝ) (m : MaterialProps) (t : ℝ) :
    (calculate_weld_pool_geometry h m t).aspect_ratio =
      3.2 * pool_width_raw h m / min (pool_width_raw h m) (t * 2) := rfl

theorem pool_dilution_eq (h : ℝ) (m : MaterialProps) (t : ℝ) :
    (calculate_weld_pool_geometry h m t).dilution_ratio =
      dilutionRatio (min (pool_penetration_raw h m t) t) := rfl

/-! ## Claims -/

/-- C1: for positive current, voltage and travel speed and arc efficiency in
`(0, 1]`, `calculate_heat_input` equals
`arc_efficiency * voltage * current / travel_speed` exactly (the ×60
conversion to mm/min cancels algebraically), and in particular
`calculate_heat_input 200 25 5 0.7 = 700`. -/
theorem C1_heat_input_formula (current voltage travel_speed arc_efficiency : ℝ)
    (hI : 0 < current) (hV : 0 < voltage) (hv : 0 < travel_speed)
    (he : 0 < arc_efficiency) (he1 : arc_efficiency ≤ 1) :
    calculate_heat_input current voltage travel_speed arc_efficiency =
      arc_efficiency * voltage * current / travel_speed ∧
    calculate_heat_input 200 25 5 0.7 = 700 := by
  constructor
  · unfold calculate_heat_input
    have hv' : travel_speed ≠ 0 := ne_of_gt hv
    field_simp
    ring
  · unfold calculate_heat_input
    norm_num

theorem C1_heat_input_formula_witness :
    calculate_heat_input 200 25 5 0.7 = 0.7 * 25 * 200 / 5 ∧
      calculate_heat_input 200 25 5 0.7 = 700 :=
  C1_heat_input_formula 200 25 5 0.7 (by norm_num) (by norm_num) (by norm_num)
    (by norm_num) (by norm_num)

/-- C6: `MaterialProperties.get_properties` on any name outside the catalog
`{"Steel", "Aluminum", "Stainless Steel", "Titanium"}` returns exactly the
record returned for `"Steel"`. -/
theorem C6_unknown_material_falls_back (material_type : String)
    (h1 : material_type ≠ "Steel") (h2 : material_type ≠ "Aluminum")
    (h3 : material_type ≠ "Stainless Steel") (h4 : material_type ≠ "Titanium") :
    MaterialProperties.get_properties material_type =
      MaterialProperties.get_properties "Steel" := by
  simp [MaterialProperties.get_properties, h1, h2, h3, h4]

theorem C6_unknown_material_falls_back_witness :
    MaterialProperties.get_properties "Unobtainium" =
      MaterialProperties.get_properties "Steel" :=
  C6_unknown_material_falls_back "Unobtainium" (by decide) (by decide) (by decide) (by decide)

/-- C10: the material lookup is total: for every input string the returned
record has strictly positive thermal conductivity, density and solid and
liquid specific heats, its temperatures satisfy
`liquidus_temp > solidus_temp > 298`, and it meets the physics engine's
preconditions (`ValidMaterial`). -/
theorem C10_get_properties_total (material_type : String) :
    0 < (MaterialProperties.get_properties material_type).thermal_conductivity ∧
    0 < (MaterialProperties.get_properties material_type).density ∧
    0 < (MaterialProperties.get_properties material_type).specific_heat_solid ∧
    0 < (MaterialProperties.get_properties material_type).specific_heat_liquid ∧
    298 < (MaterialProperties.get_properties material_type).solidus_temp ∧
    (MaterialProperties.get_properties material_type).solidus_temp <
      (MaterialProperties.get_properties material_type).liquidus_temp ∧
    ValidMaterial (MaterialProperties.get_properties material_type) := by
  unfold MaterialProperties.get_properties ValidMaterial
  split_ifs <;>
    refine ⟨?_, ?_, ?_, ?_, ?_, ?_, ?_, ?_, ?_, ?_⟩ <;>
    norm_num [Steel, Aluminum, StainlessSteel, Titanium]

/-- C4: for positive heat input, a valid material and positive plate
thickness, the returned penetration lies in `(0, plate_thickness]` and the
returned width in `(0, 2 * plate_thickness]`; and each clamp is exact: a raw
penetration above the plate thickness is returned as the plate thickness,
and a raw width above twice the plate thickness is returned as twice the
plate thickness. -/
theorem C4_pool_clamps (heat_input : ℝ) (m : MaterialProps) (plate_thickness : ℝ)
    (hh : 0 < heat_input) (hm : ValidMaterial m) (ht : 0 < plate_thickness) :
    (0 < (calculate_weld_pool_geometry heat_input m plate_thickness).penetration ∧
      (calculate_weld_pool_geometry heat_input m plate_thickness).penetration ≤
        plate_thickness ∧
      0 < (calculate_weld_pool_geometry heat_input m plate_thickness).width ∧
      (calculate_weld_pool_geometry heat_input m plate_thickness).width ≤
        2 * plate_thickness) ∧
    (plate_thickness < pool_penetration_raw heat_input m plate_thickness →
      (calculate_weld_pool_geometry heat_input m plate_thickness).penetration =
        plate_thickness) ∧
    (2 * plate_thickness < pool_width_raw heat_input m →
      (calculate_weld_pool_geometry heat_input m plate_thickness).width =
        2 * plate_thickness) := by
  rw [pool_penetration_eq, pool_width_eq]
  refine ⟨⟨?_, min_le_right _ _, ?_, ?_⟩, ?_, ?_⟩
  · exact lt_min (pool_penetration_raw_pos hh hm ht) ht
  · exact lt_min (pool_width_raw_pos hh hm) (by linarith)
  · exact le_of_le_of_eq (min_le_right _ _) (by ring)
  · intro hgt
    exact min_eq_right hgt.le
  · intro hgt
    rw [min_eq_right (by linarith)]
    ring

theorem C4_pool_clamps_witness :
    0 < (calculate_weld_pool_geometry 700 Steel 10).penetration :=
  (C4_pool_clamps 700 Steel 10 (by norm_num) Steel_valid (by norm_num)).1.1

/-- C7: the dilution ratio `p / (p + 3.0)` lies in `[0, 1)` for every
`p ≥ 0`, and the `dilution_ratio` field returned by
`calculate_weld_pool_geometry` under the engine's preconditions (positive
heat input, valid material, positive plate thickness) lies in `(0, 1)`. -/
theorem C7_dilution_ratio_bounds (p heat_input : ℝ) (m : MaterialProps)
    (plate_thickness : ℝ) (hp : 0 ≤ p) (hh : 0 < heat_input) (hm : ValidMaterial m)
    (ht : 0 < plate_thickness) :
    (0 ≤ dilutionRatio p ∧ dilutionRatio p < 1) ∧
    (0 < (calculate_weld_pool_geometry heat_input m plate_thickness).dilution_ratio ∧
      (calculate_weld_pool_geometry heat_input m plate_thickness).dilution_ratio < 1) := by
  have hgen : ∀ q : ℝ, 0 ≤ q → 0 ≤ dilutionRatio q ∧ dilutionRatio q < 1 := by
    intro q hq
    unfold dilutionRatio
    constructor
    · exact div_nonneg hq (by linarith)
    · rw [div_lt_one (by linarith)]
      linarith
  have hpen : 0 < min (pool_penetration_raw heat_input m plate_thickness) plate_thickness :=
    lt_min (pool_penetration_raw_pos hh hm ht) ht
  refine ⟨hgen p hp, ?_, ?_⟩
  · rw [pool_dilution_eq]
    unfold dilutionRatio
    exact div_pos hpen (by linarith)
  · rw [pool_dilution_eq]
    exact (hgen _ hpen.le).2

theorem C7_dilution_ratio_bounds_witness :
    0 < (calculate_weld_pool_geometry 700 Steel 10).dilution_ratio ∧
      (calculate_weld_pool_geometry 700 Steel 10).dilution_ratio < 1 :=
  (C7_dilution_ratio_bounds 0 700 Steel 10 le_rfl (by norm_num) Steel_valid (by norm_num)).2

/-- C9: under the engine's preconditions the returned `aspect_ratio` is at
least 3.2: it equals 3.2 exactly when the raw width is at most twice the
plate thickness, and is strictly greater than 3.2 when the width clamp
engages. -/
theorem C9_aspect_ratio_at_least (heat_input : ℝ) (m : MaterialProps) (plate_thickness : ℝ)
    (hh : 0 < heat_input) (hm : ValidMaterial m) (ht : 0 < plate_thickness) :
    3.2 ≤ (calculate_weld_pool_geometry heat_input m plate_thickness).aspect_ratio ∧
    (pool_width_raw heat_input m ≤ 2 * plate_thickness →
      (calculate_weld_pool_geometry heat_input m plate_thickness).aspect_ratio = 3.2) ∧
    (2 * plate_thickness < pool_width_raw heat_input m →
      3.2 < (calculate_weld_pool_geometry heat_input m plate_thickness).aspect_ratio) := by
  have hw := pool_width_raw_pos hh hm
  rw [pool_aspect_eq]
  have heq : pool_width_raw heat_input m ≤ 2 * plate_thickness →
      3.2 * pool_width_raw heat_input m /
        min (pool_width_raw heat_input m) (plate_thickness * 2) = 3.2 := by
    intro hle
    rw [min_eq_left (by linarith), mul_div_assoc, div_self (ne_of_gt hw), mul_one]
  have hgt : 2 * plate_thickness < pool_width_raw heat_input m →
      3.2 < 3.2 * pool_width_raw heat_input m /
        min (pool_width_raw heat_input m) (plate_thickness * 2) := by
    intro hlt
    rw [min_eq_right (by linarith), lt_div_iff (by linarith)]
    nlinarith
  refine ⟨?_, heq, hgt⟩
  rcases le_or_lt (pool_width_raw heat_input m) (2 * plate_thickness) with hle | hlt
  · exact le_of_eq (heq hle).symm
  · exact (hgt hlt).le

theorem C9_aspect_ratio_at_least_witness :
    3.2 ≤ (calculate_weld_pool_geometry 700 Steel 10).aspect_ratio :=
  (C9_aspect_ratio_at_least 700 Steel 10 (by norm_num) Steel_valid (by norm_num)).1

theorem pool_width_raw_Steel (h : ℝ) :
    pool_width_raw h Steel = 50 * h / (3 * Real.pi) := by
  have hpi := Real.pi_ne_zero
  simp only [pool_width_raw, characteristic_length_m, Steel]
  field_simp
  ring

theorem pool_width_raw_Steel_gt (h : ℝ) (hge : 600 ≤ h) :
    20 < pool_width_raw h Steel := by
  rw [pool_width_raw_Steel, lt_div_iff₀ (by positivity)]
  nlinarith [Real.pi_lt_315]

/-- C3 fails on the returned record once the width clamp engages: at
`heat_input = 700`, Steel and `plate_thickness = 10` the raw width
`35000 / (3π) ≈ 3714 mm` is clamped to 20 mm while the length keeps the
pre-clamp value, so `length ≠ 3.2 * width`. -/
theorem C3_length_width_counterexample :
    (calculate_weld_pool_geometry 700 Steel 10).length ≠
      3.2 * (calculate_weld_pool_geometry 700 Steel 10).width := by
  have hgt : (20:ℝ) < pool_width_raw 700 Steel := pool_width_raw_Steel_gt 700 (by norm_num)
  rw [pool_length_eq, pool_width_eq, min_eq_right (by norm_num; linarith)]
  intro heq
  norm_num at heq
  linarith

/-- C3 (amended): `aspect_ratio` always equals the returned
`length / width`; the returned `length` equals `3.2 ×` the pre-clamp width;
and `length = 3.2 × width` holds for the returned (post-clamp) width exactly
when the raw width does not exceed twice the plate thickness, i.e. when the
width clamp does not engage. -/
theorem C3_length_width_amended (heat_input : ℝ) (m : MaterialProps) (plate_thickness : ℝ)
    (hh : 0 < heat_input) (hm : ValidMaterial m) (ht : 0 < plate_thickness) :
    (calculate_weld_pool_geometry heat_input m plate_thickness).aspect_ratio =
      (calculate_weld_pool_geometry heat_input m plate_thickness).length /
        (calculate_weld_pool_geometry heat_input m plate_thickness).width ∧
    (calculate_weld_pool_geometry heat_input m plate_thickness).length =
      3.2 * pool_width_raw heat_input m ∧
    (pool_width_raw heat_input m ≤ 2 * plate_thickness →
      (calculate_weld_pool_geometry heat_input m plate_thickness).length =
        3.2 * (calculate_weld_pool_geometry heat_input m plate_thickness).width) := by
  refine ⟨rfl, rfl, ?_⟩
  intro hle
  rw [pool_length_eq, pool_width_eq, min_eq_left (by linarith)]

theorem C3_length_width_amended_witness :
    (calculate_weld_pool_geometry 700 Steel 10).aspect_ratio =
      (calculate_weld_pool_geometry 700 Steel 10).length /
        (calculate_weld_pool_geometry 700 Steel 10).width :=
  (C3_length_width_amended 700 Steel 10 (by norm_num) Steel_valid (by norm_num)).1

theorem temperature_at_ge {heat_input : ℝ} {m : MaterialProps} (travel_speed x y : ℝ)
    (hh : 0 < heat_input) (hk : 0 < m.thermal_conductivity) :
    298 ≤ temperature_at heat_input m travel_speed x y := by
  have hq : (0:ℝ) < heat_input * 1000 := by linarith
  simp only [temperature_at]
  split_ifs with hr
  · have hden : 0 < 2 * Real.pi * m.thermal_conductivity *
        Real.sqrt ((x / 1000) ^ 2 + (y / 1000) ^ 2) :=
      mul_pos (mul_pos (by positivity) hk) hr
    have hterm := mul_pos (div_pos hq hden)
      (Real.exp_pos (-(travel_speed / 1000) *
        (Real.sqrt ((x / 1000) ^ 2 + (y / 1000) ^ 2) - x / 1000) /
        (2 * (m.thermal_conductivity / (m.density * m.specific_heat_solid)))))
    linarith
  · have hden : (0:ℝ) < 4 * Real.pi * m.thermal_conductivity * 0.001 :=
      mul_pos (mul_pos (by positivity) hk) (by norm_num)
    have := div_pos hq hden
    linarith

/-- C2: every entry of the clamped temperature matrix lies in
`[298, 3500]` K, the regularized singular point included, whenever the heat
input, travel speed, thermal conductivity, density and solid specific heat
are positive. -/
theorem C2_temperature_bounds (heat_input : ℝ) (m : MaterialProps) (travel_speed : ℝ)
    (i j : ℕ) (hh : 0 < heat_input) (hk : 0 < m.thermal_conductivity)
    (hrho : 0 < m.density) (hcp : 0 < m.specific_heat_solid) (hv : 0 < travel_speed)
    (hi : i < 31) (hj : j < 61) :
    298 ≤ temperature_matrix_entry heat_input m travel_speed i j ∧
      temperature_matrix_entry heat_input m travel_speed i j ≤ 3500 := by
  unfold temperature_matrix_entry
  exact ⟨le_min (temperature_at_ge travel_speed (x_grid j) (y_grid i) hh hk) (by norm_num),
    min_le_right _ _⟩

theorem C2_temperature_bounds_witness :
    298 ≤ temperature_matrix_entry 700 Steel 5 15 20 ∧
      temperature_matrix_entry 700 Steel 5 15 20 ≤ 3500 :=
  C2_temperature_bounds 700 Steel 5 15 20 (by norm_num) (by norm_num [Steel])
    (by norm_num [Steel]) (by norm_num [Steel]) (by norm_num) (by norm_num) (by norm_num)

theorem temperature_at_axis (heat_input : ℝ) (m : MaterialProps) (travel_speed x : ℝ)
    (hx : 0 < x) :
    temperature_at heat_input m travel_speed x 0 =
      298 + (heat_input * 1000) /
        (2 * Real.pi * m.thermal_conductivity * (x / 1000)) := by
  have hxm : (0:ℝ) < x / 1000 := by linarith
  have hsq : Real.sqrt ((x / 1000) ^ 2 + ((0:ℝ) / 1000) ^ 2) = x / 1000 := by
    rw [show ((0:ℝ) / 1000) ^ 2 = 0 by norm_num, add_zero, Real.sqrt_sq hxm.le]
  simp only [temperature_at, hsq]
  rw [if_pos hxm, sub_self, mul_zero, zero_div, Real.exp_zero, mul_one]

/-- C8 (amended): along the trailing axis `y = 0` (matrix row 15) the clamped
temperature decays monotonically with distance from the source: for grid
columns `j1 < j2` that both lie behind the source (`x > 0`, i.e. `20 < j1`)
the entry at the farther point is no larger. -/
theorem C8_axis_decay_amended (heat_input : ℝ) (m : MaterialProps) (travel_speed : ℝ)
    (j1 j2 : ℕ) (hh : 0 < heat_input) (hm : ValidMaterial m) (hv : 0 < travel_speed)
    (hj1 : 20 < j1) (hj12 : j1 < j2) (hj2 : j2 ≤ 60) :
    temperature_matrix_entry heat_input m travel_speed 15 j2 ≤
      temperature_matrix_entry heat_input m travel_speed 15 j1 := by
  obtain ⟨hk, -, -, -⟩ := hm
  have hy : y_grid 15 = 0 := by norm_num [y_grid]
  have hx1 : (0:ℝ) < x_grid j1 := by
    have : (20:ℝ) < (j1:ℝ) := by exact_mod_cast hj1
    unfold x_grid; linarith
  have hx12 : x_grid j1 < x_grid j2 := by
    have : (j1:ℝ) < (j2:ℝ) := by exact_mod_cast hj12
    unfold x_grid; linarith
  have hx2 : (0:ℝ) < x_grid j2 := hx1.trans hx12
  unfold temperature_matrix_entry
  rw [hy, temperature_at_axis _ _ _ _ hx1, temperature_at_axis _ _ _ _ hx2]
  refine min_le_min (add_le_add_left ?_ _) le_rfl
  have hq : (0:ℝ) < heat_input * 1000 := by linarith
  have hd1 : (0:ℝ) < 2 * Real.pi * m.thermal_conductivity * (x_grid j1 / 1000) :=
    mul_pos (mul_pos (by positivity) hk) (by linarith)
  have hd2 : (0:ℝ) < 2 * Real.pi * m.thermal_conductivity * (x_grid j2 / 1000) :=
    mul_pos (mul_pos (by positivity) hk) (by linarith)
  apply div_le_div_of_nonneg_left hq.le hd1
  have hpk : (0:ℝ) < 2 * Real.pi * m.thermal_conductivity :=
    mul_pos (by positivity) hk
  have : x_grid j1 / 1000 ≤ x_grid j2 / 1000 := by linarith
  nlinarith

theorem C8_axis_decay_amended_witness :
    temperature_matrix_entry 700 Steel 5 15 22 ≤ temperature_matrix_entry 700 Steel 5 15 21 :=
  C8_axis_decay_amended 700 Steel 5 21 22 (by norm_num) Steel_valid (by norm_num)
    (by norm_num) (by norm_num) (by norm_num)

theorem pool_width_Steel_clamped (h : ℝ) (hge : 600 ≤ h) :
    (calculate_weld_pool_geometry h Steel 10).width = 20 := by
  have := pool_width_raw_Steel_gt h hge
  rw [pool_width_eq, min_eq_right (by norm_num; linarith)]
  norm_num

theorem sensitivity_current_parameter :
    (List.head! (sensitivity_analysis 200 25 5 0.7 Steel 10)).parameter = "current" := rfl

theorem sensitivity_current_width_zero :
    (List.head! (sensitivity_analysis 200 25 5 0.7 Steel 10)).width_sensitivity = 0 := by
  have e1 : calculate_heat_input (200 * (1 + 0.1)) 25 5 0.7 = 770 := by
    norm_num [calculate_heat_input]
  have e2 : calculate_heat_input (200 * (1 - 0.1)) 25 5 0.7 = 630 := by
    norm_num [calculate_heat_input]
  show ((calculate_weld_pool_geometry (calculate_heat_input (200 * (1 + 0.1)) 25 5 0.7)
        Steel 10).width -
      (calculate_weld_pool_geometry (calculate_heat_input (200 * (1 - 0.1)) 25 5 0.7)
        Steel 10).width) / (2 * 0.1 * 200) *
      (200 / (calculate_weld_pool_geometry (calculate_heat_input 200 25 5 0.7)
        Steel 10).width) = 0
  rw [e1, e2, pool_width_Steel_clamped 770 (by norm_num),
    pool_width_Steel_clamped 630 (by norm_num)]
  norm_num

/-- C5 fails on the code: at the representative base case (200 A, 25 V,
5 mm/s, 0.7, Steel, 10 mm plate) the width clamp `min width
(plate_thickness * 2)` saturates at both perturbed heat inputs (raw widths
of order metres against a 20 mm cap), so the central difference of the pool
widths — the `width_sensitivity` of the `"current"` entry — is exactly 0,
not positive. -/
theorem C5_width_sensitivity_counterexample :
    (List.head! (sensitivity_analysis 200 25 5 0.7 Steel 10)).parameter = "current" ∧
    ¬ (0 < (List.head! (sensitivity_analysis 200 25 5 0.7 Steel 10)).width_sensitivity) := by
  refine ⟨sensitivity_current_parameter, ?_⟩
  rw [sensitivity_current_width_zero]
  exact lt_irrefl 0

/-- C5 (amended): at the representative base case the `"current"` entry of
`sensitivity_analysis` has `width_sensitivity = 0`: the width clamp engages
at the base and at both perturbed heat inputs, so the width difference
vanishes. -/
theorem C5_width_sensitivity_amended :
    (List.head! (sensitivity_analysis 200 25 5 0.7 Steel 10)).parameter = "current" ∧
    (List.head! (sensitivity_analysis 200 25 5 0.7 Steel 10)).width_sensitivity = 0 :=
  ⟨sensitivity_current_parameter, sensitivity_current_width_zero⟩

theorem one_add_half_sq_le_exp {t : ℝ} (ht : 0 ≤ t) : (1 + t / 2) ^ 2 ≤ Real.exp t := by
  have h1 : t / 2 + 1 ≤ Real.exp (t / 2) := Real.add_one_le_exp (t / 2)
  have h2 : (0:ℝ) ≤ 1 + t / 2 := by linarith
  calc (1 + t / 2) ^ 2 ≤ Real.exp (t / 2) ^ 2 := by nlinarith [Real.exp_pos (t / 2)]
    _ = Real.exp t := by
        rw [sq, ← Real.exp_add]
        congr 1
        ring

theorem temperature_at_probe (x : ℝ) (hx : 0 < x) :
    temperature_at 0.1 probeMaterial 1000 x 1 =
      298 + 100000 / Real.sqrt (x ^ 2 + 1) *
        Real.exp (-30 * (Real.sqrt (x ^ 2 + 1) - x)) := by
  have hs1 : (0:ℝ) < x ^ 2 + 1 := by positivity
  have hsp : 0 < Real.sqrt (x ^ 2 + 1) := Real.sqrt_pos.mpr hs1
  have hsn : Real.sqrt (x ^ 2 + 1) ≠ 0 := ne_of_gt hsp
  have hpi := Real.pi_pos
  have hpin : Real.pi ≠ 0 := Real.pi_ne_zero
  have hs : Real.sqrt ((x / 1000) ^ 2 + ((1:ℝ) / 1000) ^ 2) =
      Real.sqrt (x ^ 2 + 1) / 1000 := by
    have h : (x / 1000) ^ 2 + ((1:ℝ) / 1000) ^ 2 =
        (Real.sqrt (x ^ 2 + 1) / 1000) ^ 2 := by
      simp only [div_pow]
      rw [Real.sq_sqrt hs1.le]
      ring
    rw [h, Real.sqrt_sq (by positivity)]
  simp only [temperature_at, probeMaterial, hs]
  rw [if_pos (by positivity)]
  congr 1
  congr 1
  · field_simp
    ring
  · congr 1
    field_simp
    ring

/-- C8 fails off the trailing axis: with the valid material `probeMaterial`,
`heat_input = 0.1` and `travel_speed = 1000`, the grid points
`(x, y) = (1, 1)` and `(2, 1)` (row 16, columns 21 and 22) share a y
coordinate, have positive x and radial distances `√2 < √5`, yet the nearer
point is strictly colder: the `exp (-v (R - x) / (2α))` factor grows with x
faster than the `1 / R` prefactor decays. -/
theorem C8_decay_counterexample :
    y_grid 16 = 1 ∧ x_grid 21 = 1 ∧ x_grid 22 = 2 ∧
    Real.sqrt ((1:ℝ) ^ 2 + 1 ^ 2) < Real.sqrt ((2:ℝ) ^ 2 + 1 ^ 2) ∧
    temperature_matrix_entry 0.1 probeMaterial 1000 16 21 <
      temperature_matrix_entry 0.1 probeMaterial 1000 16 22 := by
  have h2sq : Real.sqrt 2 ^ 2 = 2 := Real.sq_sqrt (by norm_num)
  have h2nn : (0:ℝ) ≤ Real.sqrt 2 := Real.sqrt_nonneg 2
  have h5sq : Real.sqrt 5 ^ 2 = 5 := Real.sq_sqrt (by norm_num)
  have h5nn : (0:ℝ) ≤ Real.sqrt 5 := Real.sqrt_nonneg 5
  have hs2a : (1.414:ℝ) < Real.sqrt 2 := by nlinarith
  have hs2b : Real.sqrt 2 < 1.415 := by nlinarith
  have hs5a : (2.236:ℝ) < Real.sqrt 5 := by nlinarith
  have hs5b : Real.sqrt 5 < 2.2361 := by nlinarith
  have hs2pos : (0:ℝ) < Real.sqrt 2 := by linarith
  have hs5pos : (0:ℝ) < Real.sqrt 5 := by linarith
  have hT1 : temperature_at 0.1 probeMaterial 1000 1 1 =
      298 + 100000 / Real.sqrt 2 * Real.exp (-30 * (Real.sqrt 2 - 1)) := by
    rw [temperature_at_probe 1 one_pos]
    norm_num
  have hT2 : temperature_at 0.1 probeMaterial 1000 2 1 =
      298 + 100000 / Real.sqrt 5 * Real.exp (-30 * (Real.sqrt 5 - 2)) := by
    rw [temperature_at_probe 2 two_pos]
    norm_num
  -- the farther point stays below the 3500 K clamp
  have hu := one_add_half_sq_le_exp (t := 30 * (Real.sqrt 5 - 2)) (by nlinarith)
  have hu0 : (0:ℝ) < Real.exp (30 * (Real.sqrt 5 - 2)) := Real.exp_pos _
  have hulb : (20.61:ℝ) ≤ Real.exp (30 * (Real.sqrt 5 - 2)) := by
    nlinarith [sq_nonneg (1 + 30 * (Real.sqrt 5 - 2) / 2 - 4.54)]
  have hE2 : Real.exp (-30 * (Real.sqrt 5 - 2)) =
      (Real.exp (30 * (Real.sqrt 5 - 2)))⁻¹ := by
    rw [show (-30:ℝ) * (Real.sqrt 5 - 2) = -(30 * (Real.sqrt 5 - 2)) by ring, Real.exp_neg]
  have hT2le : 298 + 100000 / Real.sqrt 5 * Real.exp (-30 * (Real.sqrt 5 - 2)) ≤ 3500 := by
    rw [hE2]
    have hrw : (100000:ℝ) / Real.sqrt 5 * (Real.exp (30 * (Real.sqrt 5 - 2)))⁻¹ =
        100000 / (Real.sqrt 5 * Real.exp (30 * (Real.sqrt 5 - 2))) := by
      rw [div_eq_mul_inv, mul_assoc, ← mul_inv, ← div_eq_mul_inv]
    rw [hrw]
    have hX : (100000:ℝ) / (Real.sqrt 5 * Real.exp (30 * (Real.sqrt 5 - 2))) ≤ 3202 := by
      rw [div_le_iff₀ (mul_pos hs5pos hu0)]
      nlinarith [mul_nonneg (by linarith : (0:ℝ) ≤ Real.sqrt 5 - 2.236)
        (by linarith : (0:ℝ) ≤ Real.exp (30 * (Real.sqrt 5 - 2)) - 20.61)]
    linarith
  -- the nearer point is strictly colder
  have hE1pos : (0:ℝ) < Real.exp (-30 * (Real.sqrt 2 - 1)) := Real.exp_pos _
  have hw : 1 + 30 * (1 + Real.sqrt 2 - Real.sqrt 5) ≤
      Real.exp (30 * (1 + Real.sqrt 2 - Real.sqrt 5)) := by
    have := Real.add_one_le_exp (30 * (1 + Real.sqrt 2 - Real.sqrt 5))
    linarith
  have hwpos : (0:ℝ) < Real.exp (30 * (1 + Real.sqrt 2 - Real.sqrt 5)) := Real.exp_pos _
  have hsplit : Real.exp (-30 * (Real.sqrt 5 - 2)) =
      Real.exp (-30 * (Real.sqrt 2 - 1)) * Real.exp (30 * (1 + Real.sqrt 2 - Real.sqrt 5)) := by
    rw [← Real.exp_add]
    congr 1
    ring
  have hL : (6.33:ℝ) < Real.exp (30 * (1 + Real.sqrt 2 - Real.sqrt 5)) := by
    have : (0.1779:ℝ) < 1 + Real.sqrt 2 - Real.sqrt 5 := by linarith
    linarith
  have hkey : Real.sqrt 5 < Real.exp (30 * (1 + Real.sqrt 2 - Real.sqrt 5)) * Real.sqrt 2 := by
    nlinarith [mul_nonneg (by linarith : (0:ℝ) ≤
        Real.exp (30 * (1 + Real.sqrt 2 - Real.sqrt 5)) - 6.33)
      (by linarith : (0:ℝ) ≤ Real.sqrt 2 - 1.414)]
  have hT1ltT2 : 298 + 100000 / Real.sqrt 2 * Real.exp (-30 * (Real.sqrt 2 - 1)) <
      298 + 100000 / Real.sqrt 5 * Real.exp (-30 * (Real.sqrt 5 - 2)) := by
    rw [hsplit]
    have hmain : (100000:ℝ) / Real.sqrt 2 * Real.exp (-30 * (Real.sqrt 2 - 1)) <
        100000 / Real.sqrt 5 *
          (Real.exp (-30 * (Real.sqrt 2 - 1)) * Real.exp (30 * (1 + Real.sqrt 2 - Real.sqrt 5))) := by
      rw [div_mul_eq_mul_div, div_mul_eq_mul_div, div_lt_div_iff₀ hs2pos hs5pos]
      nlinarith [mul_lt_mul_of_pos_left hkey hE1pos, hE1pos, hwpos]
    linarith
  have hx21 : x_grid 21 = 1 := by norm_num [x_grid]
  have hx22 : x_grid 22 = 2 := by norm_num [x_grid]
  have hy16 : y_grid 16 = 1 := by norm_num [y_grid]
  refine ⟨hy16, hx21, hx22, ?_, ?_⟩
  · exact Real.sqrt_lt_sqrt (by norm_num) (by norm_num)
  · unfold temperature_matrix_entry
    rw [hx21, hx22, hy16, hT1, hT2]
    calc min (298 + 100000 / Real.sqrt 2 * Real.exp (-30 * (Real.sqrt 2 - 1))) 3500
        ≤ 298 + 100000 / Real.sqrt 2 * Real.exp (-30 * (Real.sqrt 2 - 1)) := min_le_left _ _
      _ < 298 + 100000 / Real.sqrt 5 * Real.exp (-30 * (Real.sqrt 5 - 2)) := hT1ltT2
      _ = min (298 + 100000 / Real.sqrt 5 * Real.exp (-30 * (Real.sqrt 5 - 2))) 3500 :=
          (min_eq_left hT2le).symm

end WeldProfile
